import Mathlib

/-!
Shallow embedding of `grb-sys2/build.rs`, the build script of the `grb-sys2`
crate.  The script resolves a Gurobi installation root from the environment
variable `GUROBI_HOME`, canonicalizes it, probes `bin/gurobi_cl --version`
for the library version, and emits two cargo linker directives.

Modelling conventions:
* Paths are Unix-style strings; `pathJoin`, `pathParent` and `debugQuote`
  model `Path::join`, `Path::parent` and the `{:?}` (Debug) formatting of a
  `PathBuf` on Unix for paths built from ordinary characters.
* The process environment, filesystem and subprocess boundary is an abstract
  `World` of functions; the script only interacts with the outside through
  these fields, so independence from a field models absence of that side
  effect.
* A Rust panic (an `unwrap` failure) is a distinguished outcome
  `Outcome.panicked`, separate from the `Result::Err` path.
-/

namespace GrbBuild

/-- Error taxonomy of the build script (the `enum Error` of `build.rs`).
The spec calls these, in order: PathNotFound, ConfigurationMissing,
ProbeExecutableMissing, VersionUnreadable. -/
inductive Error where
  | DoesNotExist (p : String)
  | GurobiHomeNotGiven
  | GurobiClNotFound
  | CannotParseGurobiVersion
  deriving DecidableEq

/-- Result of running a piece of code that may return a value, return a
recoverable error, or crash with a Rust panic (an `unwrap` failure). -/
inductive Outcome (α : Type) where
  | ok : α → Outcome α
  | err : Error → Outcome α
  | panicked : Outcome α
  deriving DecidableEq

/-- Model of `std::path::Path::parent` for Unix-style paths: drop trailing
separators, then drop the final component and the separators before it.
`none` models Rust's `None`, returned for the empty path and for the root. -/
def pathParent (p : String) : Option String :=
  let cs := p.toList
  let trimmed := (cs.reverse.dropWhile (fun c => c = '/')).reverse
  if cs.isEmpty then none
  else if trimmed.isEmpty then none
  else
    let rev := trimmed.reverse
    let rest := rev.dropWhile (fun c => c ≠ '/')
    let rest2 := rest.dropWhile (fun c => c = '/')
    if rest2.isEmpty then
      if rest.isEmpty then some "" else some "/"
    else some (String.mk rest2.reverse)

/-- Whether the first character of a string is the path separator. -/
def headIsSlash (s : String) : Bool :=
  match s.toList with
  | [] => false
  | c :: _ => c = '/'

/-- Whether the last character of a string is the path separator. -/
def lastIsSlash (s : String) : Bool :=
  match s.toList.reverse with
  | [] => false
  | c :: _ => c = '/'

/-- Model of `std::path::Path::join` on Unix: joining an absolute path
replaces the base; otherwise a separator is inserted unless already there. -/
def pathJoin (a b : String) : String :=
  if headIsSlash b then b
  else if a = "" then b
  else if lastIsSlash a then a ++ b
  else a ++ "/" ++ b

/-- Escaping of one character under Rust's Debug formatting of a path. -/
def escapeChar (c : Char) : List Char :=
  if c = '"' then ['\\', '"']
  else if c = '\\' then ['\\', '\\']
  else if c = '\n' then ['\\', 'n']
  else if c = '\t' then ['\\', 't']
  else if c = '\r' then ['\\', 'r']
  else [c]

/-- Model of formatting a `PathBuf` with `{:?}` (Debug) on Unix: the string
wrapped in double quotes, with quote and backslash characters escaped. -/
def debugQuote (s : String) : String :=
  "\"" ++ String.mk ((s.toList.map escapeChar).flatten) ++ "\""

/-- Model of `impl Display for Error` in `build.rs`.  `none` models a panic
while formatting: the `DoesNotExist` arm calls `p.parent().unwrap()`, which
panics when the stored path has no parent component. -/
def displayError : Error → Option String
  | Error.DoesNotExist p =>
      (pathParent p).map (fun par =>
        "GUROBI_HOME is set to " ++ debugQuote par ++ " but " ++ debugQuote p
          ++ " does not exist (or is not a directory)")
  | Error.GurobiHomeNotGiven => some "GUROBI_HOME not set"
  | Error.GurobiClNotFound => some "gurobi_cl not found"
  | Error.CannotParseGurobiVersion => some "Cannot get Gurobi version"

/-! Model of the regex `Gurobi Optimizer version (\d+).(\d+).(\d+)` as used
through `Regex::captures`: leftmost match start, greedy `\d+` groups with
backtracking, and `.` matching any character except a newline (the dots in
the pattern are not escaped in the source). -/

/-- The literal part of the version pattern. -/
def verLit : List Char := "Gurobi Optimizer version ".toList

/-- Match a literal at the head of the input, returning the rest. -/
def takesLit : List Char → List Char → Option (List Char)
  | [], s => some s
  | _ :: _, [] => none
  | l :: ls, c :: cs => if c = l then takesLit ls cs else none

/-- Try group lengths `n, n-1, ..., 1` for a digit group (longest first,
as a greedy `\d+` does), passing the group text and the rest to `cont`. -/
def greedyDigitsAux (cont : String → List Char → Option α) (s : List Char) :
    Nat → Option α
  | 0 => none
  | n + 1 =>
    match cont (String.mk (s.take (n + 1))) (s.drop (n + 1)) with
    | some a => some a
    | none => greedyDigitsAux cont s n

/-- Greedy `\d+`: longest run of digits at the head of the input first,
backtracking to shorter nonempty prefixes of that run. -/
def greedyDigits (cont : String → List Char → Option α) (s : List Char) :
    Option α :=
  greedyDigitsAux cont s (s.takeWhile Char.isDigit).length

/-- The regex metacharacter `.`: any single character except a newline. -/
def anyChar (cont : List Char → Option α) : List Char → Option α
  | [] => none
  | c :: rest => if c = '\n' then none else cont rest

/-- Match `(\d+).(\d+).(\d+)` at the head of the input, returning the three
captured digit groups. -/
def matchVersionAt (s : List Char) : Option (String × String × String) :=
  greedyDigits (fun d1 r1 =>
    anyChar (fun r2 =>
      greedyDigits (fun d2 r3 =>
        anyChar (fun r4 =>
          greedyDigits (fun d3 _ => some (d1, d2, d3)) r4) r3) r2) r1) s

/-- Scan left to right for the first position where the whole pattern
(literal, then the version groups) matches. -/
def searchVersion : List Char → Option (String × String × String)
  | [] => none
  | c :: rest =>
    match takesLit verLit (c :: rest) with
    | some r =>
      match matchVersionAt r with
      | some t => some t
      | none => searchVersion rest
    | none => searchVersion rest

/-- Model of `re.captures(&output)` for the version pattern: the three
captured groups of the leftmost match, or `none` when the pattern does not
match anywhere in the output. -/
def captureVersion (s : String) : Option (String × String × String) :=
  searchVersion s.toList

/-- The outside world as the build script sees it: the environment variable,
the filesystem, and the subprocess boundary.  `gurobiHomeVar` is the result
of `env::var("GUROBI_HOME")` (`none` models absence or a non-unicode value);
`canonicalize` is `Path::canonicalize` (`none` models failure); `pathExists`
is `Path::exists`; `runProbe` is running `<path> --version` and decoding its
standard output (`none` models a spawn failure, `some none` output bytes
that are not valid UTF-8, `some (some s)` the decoded output). -/
structure World where
  gurobiHomeVar : Option String
  canonicalize : String → Option String
  pathExists : String → Bool
  runProbe : String → Option (Option String)

/-- Model of `get_gurobi_home`: read `GUROBI_HOME`, treat an empty value as
unset, then canonicalize, keeping the original path in the error. -/
def get_gurobi_home (w : World) : Except Error String :=
  match w.gurobiHomeVar with
  | none => Except.error Error.GurobiHomeNotGiven
  | some path =>
    if path = "" then Except.error Error.GurobiHomeNotGiven
    else
      match w.canonicalize path with
      | none => Except.error (Error.DoesNotExist path)
      | some canon => Except.ok canon

/-- The probe executable path `<root>/bin/gurobi_cl`. -/
def gurobiClPath (gurobi_home : String) : String :=
  pathJoin (pathJoin gurobi_home "bin") "gurobi_cl"

/-- Model of `get_gurobi_library`: check that `<root>/bin/gurobi_cl` exists,
run it with `--version`, decode its stdout, then extract the version with
the regex.  The source calls `.unwrap()` on the capture result, so a
non-matching output is a panic (`Outcome.panicked`), not an error value. -/
def get_gurobi_library (w : World) (gurobi_home : String) : Outcome String :=
  if ! w.pathExists (gurobiClPath gurobi_home) then
    Outcome.err Error.GurobiClNotFound
  else
    match w.runProbe (gurobiClPath gurobi_home) with
    | none => Outcome.err Error.CannotParseGurobiVersion
    | some none => Outcome.err Error.CannotParseGurobiVersion
    | some (some output) =>
      match captureVersion output with
      | none => Outcome.panicked
      | some (major, minor, _) => Outcome.ok ("gurobi" ++ major ++ minor)

/-- Model of `try_main`: resolve the home, derive the library identifier,
and on success print the two cargo directives (returned here as the list of
stdout lines, in order). -/
def try_main (w : World) : Outcome (List String) :=
  match get_gurobi_home w with
  | Except.error e => Outcome.err e
  | Except.ok gurobi_home =>
    match get_gurobi_library w gurobi_home with
    | Outcome.err e => Outcome.err e
    | Outcome.panicked => Outcome.panicked
    | Outcome.ok library =>
      Outcome.ok
        ["cargo:rustc-link-search=native=" ++ pathJoin gurobi_home "lib",
         "cargo:rustc-link-lib=dylib=" ++ library]

/-- Observable behaviour of one whole process run: the stdout lines, the
stderr lines, and the exit status. -/
structure RunResult where
  stdout : List String
  stderr : List String
  exitCode : Nat
  deriving DecidableEq

/-- Model of `fn main`: on success the directives are on stdout and the exit
status is 0; on an error the Display text is the single stderr line and the
exit status is 1.  `none` models a process abort by panic — either the
`unwrap` inside `get_gurobi_library`, or a panic inside `Display::fmt`
while `eprintln!` formats the error. -/
def main (w : World) : Option RunResult :=
  match try_main w with
  | Outcome.ok lines => some { stdout := lines, stderr := [], exitCode := 0 }
  | Outcome.panicked => none
  | Outcome.err e =>
    match displayError e with
    | none => none
    | some msg => some { stdout := [], stderr := [msg], exitCode := 1 }

/-! Concrete worlds used to evaluate the model on the scenarios of the
specification. -/

/-- World of the end-to-end success scenario: `GUROBI_HOME=/opt/gurobi952`,
the directory canonicalizes to itself, the probe executable exists and
prints the reference version line. -/
def w952 : World where
  gurobiHomeVar := some "/opt/gurobi952"
  canonicalize := fun p => if p = "/opt/gurobi952" then some "/opt/gurobi952" else none
  pathExists := fun p => if p = "/opt/gurobi952/bin/gurobi_cl" then true else false
  runProbe := fun p =>
    if p = "/opt/gurobi952/bin/gurobi_cl" then
      some (some "Gurobi Optimizer version 9.5.2 build v9.5.2rc0")
    else none

/-- World identical to `w952` except that the probe prints nothing. -/
def wEmptyOut : World where
  gurobiHomeVar := some "/opt/gurobi952"
  canonicalize := fun p => if p = "/opt/gurobi952" then some "/opt/gurobi952" else none
  pathExists := fun p => if p = "/opt/gurobi952/bin/gurobi_cl" then true else false
  runProbe := fun p =>
    if p = "/opt/gurobi952/bin/gurobi_cl" then some (some "") else none

/-- World identical to `w952` except that the probe prints a version whose
components are separated by letters instead of dots. -/
def wSep : World where
  gurobiHomeVar := some "/opt/gurobi952"
  canonicalize := fun p => if p = "/opt/gurobi952" then some "/opt/gurobi952" else none
  pathExists := fun p => if p = "/opt/gurobi952/bin/gurobi_cl" then true else false
  runProbe := fun p =>
    if p = "/opt/gurobi952/bin/gurobi_cl" then
      some (some "Gurobi Optimizer version 9a5b2")
    else none

/-- World where the environment variable is absent. -/
def wAbsent : World where
  gurobiHomeVar := none
  canonicalize := fun _ => none
  pathExists := fun _ => false
  runProbe := fun _ => none

/-- World where the environment variable is set to the empty string. -/
def wEmptyVar : World where
  gurobiHomeVar := some ""
  canonicalize := fun _ => none
  pathExists := fun _ => false
  runProbe := fun _ => none

/-- World where `GUROBI_HOME=/opt/gurobi952` but canonicalization fails
(the directory does not exist). -/
def wMissing : World where
  gurobiHomeVar := some "/opt/gurobi952"
  canonicalize := fun _ => none
  pathExists := fun _ => false
  runProbe := fun _ => none

/-- World where `GUROBI_HOME=/` (a parentless path) and canonicalization
fails, so the resulting error stores a path with no parent component. -/
def wRootVar : World where
  gurobiHomeVar := some "/"
  canonicalize := fun _ => none
  pathExists := fun _ => false
  runProbe := fun _ => none

/-- World where `<root>/bin/gurobi_cl` exists on disk but spawning it fails
(it is, for example, a directory rather than an executable file). -/
def wDirCl : World where
  gurobiHomeVar := some "/opt/gurobi952"
  canonicalize := fun p => if p = "/opt/gurobi952" then some "/opt/gurobi952" else none
  pathExists := fun p => if p = "/opt/gurobi952/bin/gurobi_cl" then true else false
  runProbe := fun _ => none

/-! Theorems settling the claims. -/

/-- C1: the claim states that a probe output in which the version pattern
does not match anywhere yields the recoverable error `VersionUnreadable`
(`CannotParseGurobiVersion`).  The source instead calls `.unwrap()` on the
capture result, so on the empty probe output the pattern finds no match and
the script panics: the prober's outcome is `panicked`, not an error value,
and the whole run aborts with no diagnostic line. -/
theorem c1_unchecked_unwrap_panics :
    captureVersion "" = none ∧
    get_gurobi_library wEmptyOut "/opt/gurobi952" = Outcome.panicked ∧
    get_gurobi_library wEmptyOut "/opt/gurobi952" ≠
      Outcome.err Error.CannotParseGurobiVersion ∧
    main wEmptyOut = none :=
  ⟨rfl, rfl, by decide, rfl⟩

/-- C2: the claim states that the pattern only accepts three integers
separated by dot characters.  The dots in the source pattern are not
escaped, so they match any non-newline character: on the probe output
`Gurobi Optimizer version 9a5b2` the pattern matches, captures 9 and 5,
and the prober derives the identifier `gurobi95`. -/
theorem c2_unescaped_dots_match :
    captureVersion "Gurobi Optimizer version 9a5b2" = some ("9", "5", "2") ∧
    get_gurobi_library wSep "/opt/gurobi952" = Outcome.ok "gurobi95" :=
  ⟨rfl, rfl⟩

/-- C3 (counterexample): for the configured root `/opt/gurobi952` the
validator does return `DoesNotExist` carrying the original path, but the
display text is not the claimed one: the first placeholder holds the
Debug-quoted parent directory `"/opt"`, not the root, so the text differs
from the claimed message under both the unquoted and the quoted reading. -/
theorem c3_display_counterexample :
    get_gurobi_home wMissing = Except.error (Error.DoesNotExist "/opt/gurobi952") ∧
    displayError (Error.DoesNotExist "/opt/gurobi952") =
      some "GUROBI_HOME is set to \"/opt\" but \"/opt/gurobi952\" does not exist (or is not a directory)" ∧
    displayError (Error.DoesNotExist "/opt/gurobi952") ≠
      some "GUROBI_HOME is set to /opt/gurobi952 but /opt/gurobi952 does not exist (or is not a directory)" ∧
    displayError (Error.DoesNotExist "/opt/gurobi952") ≠
      some "GUROBI_HOME is set to \"/opt/gurobi952\" but \"/opt/gurobi952\" does not exist (or is not a directory)" :=
  ⟨rfl, rfl, by decide, by decide⟩

/-- C3 (amended): for every non-empty root value whose canonicalization
fails, the validator returns `DoesNotExist` carrying the original
uncanonicalized path, and the display text is `GUROBI_HOME is set to
<parent> but <path> does not exist (or is not a directory)` where the first
placeholder holds the Debug-quoted parent directory of the configured root
and the second the Debug-quoted root itself. -/
theorem c3_pathnotfound_display (w : World) (path par : String)
    (hvar : w.gurobiHomeVar = some path) (hne : path ≠ "")
    (hcanon : w.canonicalize path = none)
    (hpar : pathParent path = some par) :
    get_gurobi_home w = Except.error (Error.DoesNotExist path) ∧
    displayError (Error.DoesNotExist path) =
      some ("GUROBI_HOME is set to " ++ debugQuote par ++ " but "
        ++ debugQuote path ++ " does not exist (or is not a directory)") := by
  constructor
  · simp [get_gurobi_home, hvar, hne, hcanon]
  · simp [displayError, hpar]

/-- Witness for C3: the amended statement evaluated at the world `wMissing`
with root `/opt/gurobi952` and parent `/opt`. -/
theorem c3_pathnotfound_display_witness :
    get_gurobi_home wMissing = Except.error (Error.DoesNotExist "/opt/gurobi952") ∧
    displayError (Error.DoesNotExist "/opt/gurobi952") =
      some ("GUROBI_HOME is set to " ++ debugQuote "/opt" ++ " but "
        ++ debugQuote "/opt/gurobi952" ++ " does not exist (or is not a directory)") :=
  c3_pathnotfound_display wMissing "/opt/gurobi952" "/opt" rfl (by decide) rfl rfl

/-- C4: whenever the version pattern matches the probe output, the derived
library identifier is the fixed prefix `gurobi` concatenated with the
captured major and minor digit sequences, with no separator and no
padding. -/
theorem c4_identifier_concatenation (w : World) (root M m p out : String)
    (hex : w.pathExists (gurobiClPath root) = true)
    (hrun : w.runProbe (gurobiClPath root) = some (some out))
    (hcap : captureVersion out = some (M, m, p)) :
    get_gurobi_library w root = Outcome.ok ("gurobi" ++ M ++ m) := by
  simp [get_gurobi_library, hex, hrun, hcap]

/-- Witness for C4: on the reference probe output
`Gurobi Optimizer version 9.5.2 build v9.5.2rc0` the captures are 9, 5, 2
and the derived identifier is exactly `gurobi95`. -/
theorem c4_identifier_concatenation_witness :
    get_gurobi_library w952 "/opt/gurobi952" = Outcome.ok "gurobi95" := by
  have h := c4_identifier_concatenation w952 "/opt/gurobi952" "9" "5" "2"
    "Gurobi Optimizer version 9.5.2 build v9.5.2rc0" rfl rfl (by decide)
  exact h.trans (by decide)

/-- C5: on every successful run, stdout consists of exactly two directive
lines in order: the native search path directive for `<root>/lib`, then the
dynamic link directive for the derived library identifier; stderr is empty
and the exit status is 0. -/
theorem c5_two_directives (w : World) (canon lib : String)
    (hhome : get_gurobi_home w = Except.ok canon)
    (hlib : get_gurobi_library w canon = Outcome.ok lib) :
    try_main w = Outcome.ok
      ["cargo:rustc-link-search=native=" ++ pathJoin canon "lib",
       "cargo:rustc-link-lib=dylib=" ++ lib] ∧
    main w = some
      { stdout := ["cargo:rustc-link-search=native=" ++ pathJoin canon "lib",
                   "cargo:rustc-link-lib=dylib=" ++ lib],
        stderr := [], exitCode := 0 } := by
  have h1 : try_main w = Outcome.ok
      ["cargo:rustc-link-search=native=" ++ pathJoin canon "lib",
       "cargo:rustc-link-lib=dylib=" ++ lib] := by
    simp [try_main, hhome, hlib]
  exact ⟨h1, by simp [main, h1]⟩

/-- Witness for C5: in the `/opt/gurobi952` scenario with probe version
9.5.2, stdout is exactly the two directive lines of the specification. -/
theorem c5_two_directives_witness :
    main w952 = some
      { stdout := ["cargo:rustc-link-search=native=/opt/gurobi952/lib",
                   "cargo:rustc-link-lib=dylib=gurobi95"],
        stderr := [], exitCode := 0 } := by
  have h := (c5_two_directives w952 "/opt/gurobi952" "gurobi95" rfl (by decide)).2
  exact h.trans (by decide)

/-- C6 (counterexample): a failing run in which a stage returns an error
need not produce the one-line diagnostic: with `GUROBI_HOME=/` and failing
canonicalization, the validator returns `DoesNotExist "/"`, whose Display
panics on `parent().unwrap()`, so the run aborts (`main` is `none`) instead
of writing one stderr line and exiting with status 1. -/
theorem c6_display_panic_counterexample :
    try_main wRootVar = Outcome.err (Error.DoesNotExist "/") ∧
    main wRootVar = none :=
  ⟨rfl, rfl⟩

/-- C6 (amended): for every failing run whose error has a displayable
message (every error except `DoesNotExist` on a parentless path), stderr is
exactly the one Display line, stdout is empty and the exit status is 1;
when the Display itself panics the run aborts with no run result; and on
every successful run the exit status is 0 with the directives on stdout. -/
theorem c6_stderr_exit (w : World) :
    (∀ e msg, try_main w = Outcome.err e → displayError e = some msg →
      main w = some { stdout := [], stderr := [msg], exitCode := 1 }) ∧
    (∀ e, try_main w = Outcome.err e → displayError e = none →
      main w = none) ∧
    (∀ lines, try_main w = Outcome.ok lines →
      main w = some { stdout := lines, stderr := [], exitCode := 0 }) := by
  refine ⟨?_, ?_, ?_⟩
  · intro e msg h1 h2
    simp [main, h1, h2]
  · intro e h1 h2
    simp [main, h1, h2]
  · intro lines h1
    simp [main, h1]

/-- Witness for C6: in the world where the variable is absent, the run
fails with `GurobiHomeNotGiven`, stderr is exactly `GUROBI_HOME not set`,
stdout is empty and the exit status is 1. -/
theorem c6_stderr_exit_witness :
    main wAbsent = some { stdout := [], stderr := ["GUROBI_HOME not set"], exitCode := 1 } :=
  (c6_stderr_exit wAbsent).1 Error.GurobiHomeNotGiven "GUROBI_HOME not set" rfl rfl

/-- C7: when the variable is absent or set to the empty string the resolver
returns `GurobiHomeNotGiven`; the result is the same in every world with
that variable value, so no filesystem access (no canonicalization) can
influence it. -/
theorem c7_config_missing (w : World)
    (h : w.gurobiHomeVar = none ∨ w.gurobiHomeVar = some "") :
    get_gurobi_home w = Except.error Error.GurobiHomeNotGiven ∧
    ∀ w' : World, w'.gurobiHomeVar = w.gurobiHomeVar →
      get_gurobi_home w' = Except.error Error.GurobiHomeNotGiven := by
  constructor
  · rcases h with h | h <;> simp [get_gurobi_home, h]
  · intro w' h'
    rcases h with h | h <;> rw [h] at h' <;> simp [get_gurobi_home, h']

/-- Witness for C7: the absent-variable world and the empty-variable world
both resolve to `GurobiHomeNotGiven`. -/
theorem c7_config_missing_witness :
    get_gurobi_home wAbsent = Except.error Error.GurobiHomeNotGiven ∧
    get_gurobi_home wEmptyVar = Except.error Error.GurobiHomeNotGiven :=
  ⟨(c7_config_missing wAbsent (Or.inl rfl)).1,
   (c7_config_missing wEmptyVar (Or.inr rfl)).1⟩

/-- C8: for every world whose filesystem lacks `<root>/bin/gurobi_cl`, the
prober returns `GurobiClNotFound`; the statement holds for every `runProbe`
whatsoever, so no subprocess is ever consulted in that case. -/
theorem c8_probe_missing (w : World) (root : String)
    (h : w.pathExists (gurobiClPath root) = false) :
    get_gurobi_library w root = Outcome.err Error.GurobiClNotFound := by
  simp [get_gurobi_library, h]

/-- Witness for C8: in the world with an empty filesystem the prober
returns `GurobiClNotFound`. -/
theorem c8_probe_missing_witness :
    get_gurobi_library wMissing "/opt/gurobi952" = Outcome.err Error.GurobiClNotFound :=
  c8_probe_missing wMissing "/opt/gurobi952" rfl

/-- C9: formatting the `DoesNotExist` error is total exactly when the
stored path has a parent component; for the parentless path `/` the
`parent().unwrap()` call panics, modelled by `displayError` returning
`none`. -/
theorem c9_display_total_iff_parent :
    (∀ p : String,
      displayError (Error.DoesNotExist p) = none ↔ pathParent p = none) ∧
    displayError (Error.DoesNotExist "/") = none := by
  constructor
  · intro p
    simp [displayError]
  · rfl

/-- C10: the probe check consults only the existence bit: when
`<root>/bin/gurobi_cl` exists but spawning it fails (for instance because
it is a directory), the prober does not return `GurobiClNotFound` but
proceeds to spawn and surfaces the failure as `CannotParseGurobiVersion`
(the `VersionUnreadable` variant). -/
theorem c10_exists_only_check (w : World) (root : String)
    (hex : w.pathExists (gurobiClPath root) = true)
    (hspawn : w.runProbe (gurobiClPath root) = none) :
    get_gurobi_library w root = Outcome.err Error.CannotParseGurobiVersion ∧
    get_gurobi_library w root ≠ Outcome.err Error.GurobiClNotFound := by
  have h : get_gurobi_library w root = Outcome.err Error.CannotParseGurobiVersion := by
    simp [get_gurobi_library, hex, hspawn]
  refine ⟨h, ?_⟩
  rw [h]
  decide

/-- Witness for C10: in the world where the probe path exists but the spawn
fails, the prober returns `CannotParseGurobiVersion`. -/
theorem c10_exists_only_check_witness :
    get_gurobi_library wDirCl "/opt/gurobi952" = Outcome.err Error.CannotParseGurobiVersion ∧
    get_gurobi_library wDirCl "/opt/gurobi952" ≠ Outcome.err Error.GurobiClNotFound :=
  c10_exists_only_check wDirCl "/opt/gurobi952" rfl rfl

end GrbBuild
